import Mathlib

/- Shallow embedding of the PoET repository sources (ggpk.py and diff.py).
   Byte sources are lists of naturals; file descriptors are a (data, pos)
   pair; Python exceptions become Except values. -/

namespace Ggpk

/-- Little-endian interpretation of a byte list as a natural number,
least significant byte first (as struct.unpack with format < does). -/
def leNat : List Nat → Nat
  | [] => 0
  | b :: rest => b + 256 * leNat rest

/-- The n bytes of data starting at absolute position p (short near the end). -/
def bytesAt (data : List Nat) (p n : Nat) : List Nat := (data.drop p).take n

/-- Unsigned 32-bit little-endian field (struct code I). -/
def u32le (l : List Nat) : Nat := leNat (l.take 4)

/-- Unsigned 64-bit little-endian field (struct code Q). -/
def u64le (l : List Nat) : Nat := leNat (l.take 8)

/-- Signed 32-bit little-endian field (struct code i), two's complement. -/
def i32le (l : List Nat) : Int :=
  if u32le l < 2147483648 then (u32le l : Int) else (u32le l : Int) - 4294967296

/-- Models bytes.decode of the utf16 codec at the UTF-16 code-unit level:
little-endian pairs of bytes become code units (the codec's default byte
order when no BOM is present).  Surrogate-pair combination, BOM stripping
and the codec's error conditions are not modelled; no claim depends on the
interpretation of name bytes, which stay opaque in every statement. -/
def utf16Units : List Nat → List Nat
  | b0 :: b1 :: rest => (b0 + 256 * b1) :: utf16Units rest
  | _ => []

/-- Models `_decode_str` (ggpk.py line 99-100). -/
def decode_str (s : List Nat) : List Nat := utf16Units s

/-- Models str.rstrip applied with the NUL character: removes trailing
zero code units. -/
def rstripNull (l : List Nat) : List Nat :=
  (l.reverse.dropWhile (fun b => b == 0)).reverse

/-- Record tag PDIR as raw bytes. -/
def pdirTag : List Nat := [80, 68, 73, 82]

/-- Record tag FILE as raw bytes. -/
def fileTag : List Nat := [70, 73, 76, 69]

/-- Record tag FREE as raw bytes. -/
def freeTag : List Nat := [70, 82, 69, 69]

/-- The GGPK magic identifier bytes expected by the format. -/
def gpkMagic : List Nat := [71, 71, 80, 75]

/-- A binary-mode file descriptor: the whole byte source plus the current
read position (Python file object opened with mode rb). -/
structure Fd where
  data : List Nat
  pos : Nat
deriving DecidableEq

/-- Models f.read(n) for n ≥ 0: returns up to n bytes from the current
position and advances the position by the number of bytes returned. -/
def Fd.read (fd : Fd) (n : Nat) : List Nat × Fd :=
  let bytes := (fd.data.drop fd.pos).take n
  (bytes, ⟨fd.data, fd.pos + bytes.length⟩)

/-- Models f.read(n) for an Int argument: a negative size reads to EOF
(Python buffered reader semantics), otherwise as Fd.read. -/
def Fd.readInt (fd : Fd) (n : Int) : List Nat × Fd :=
  if n < 0 then
    let bytes := fd.data.drop fd.pos
    (bytes, ⟨fd.data, fd.pos + bytes.length⟩)
  else
    fd.read n.toNat

/-- Models f.seek(p) (absolute). -/
def Fd.seekAbs (fd : Fd) (p : Nat) : Fd := ⟨fd.data, p⟩

/-- Models f.seek(d, 1) (relative to the current position). -/
def Fd.seekRel (fd : Fd) (d : Nat) : Fd := ⟨fd.data, fd.pos + d⟩

/-- Models f.tell(). -/
def Fd.tell (fd : Fd) : Nat := fd.pos

/-- The single Python-level failure the reader can raise in this model:
struct.error from struct.unpack_from when the buffer read for a fixed-size
struct is shorter than the struct size. -/
inductive Err where
  | structError
deriving DecidableEq

/-- Models `_read_struct` (ggpk.py lines 102-104) for a struct of size n:
reads n bytes and fails like unpack_from when fewer are available.  The
unpacked fields are extracted from the returned buffer by the callers. -/
def readStructN (fd : Fd) (n : Nat) : Option (List Nat × Fd) :=
  let p := fd.read n
  if p.1.length < n then none else some p

/-- A decoded record: DirectoryEntry or FileEntry from ggpk.py.  A
directory's children are the on-disk child offsets, in on-disk order; each
offset is the `where` field of a ChildPointer sharing the archive's fd, so
a child is represented unresolved (laziness is structural).  A file entry
carries the `where` 2-tuple (offset, size); the size is an Int because the
source computes it by subtraction with no lower bound. -/
inductive Entry where
  | dir (name : List Nat) (children : List Nat)
  | file (name : List Nat) (offs : Nat) (size : Int)
deriving DecidableEq

/-- Loop body of `_read_pdir` (ggpk.py lines 120-128): reads count child
structs {checksum u32, child offset u64}, collecting the offsets in
on-disk order.  The source seeks to each child offset and back (lines
123-128) without reading there; both seeks are modelled. -/
def read_children : Nat → Fd → Except Err (List Nat × Fd)
  | 0, fd => .ok ([], fd)
  | n + 1, fd =>
    match readStructN fd 12 with
    | none => .error .structError
    | some (buf, fd1) =>
      let childoffs := u64le (buf.drop 4)
      let nextpos := fd1.tell
      let fd2 := (fd1.seekAbs childoffs).seekAbs nextpos
      match read_children n fd2 with
      | .error e => .error e
      | .ok (rest, fd3) => .ok (childoffs :: rest, fd3)

/-- Models `_read_pdir` (ggpk.py lines 112-129): name length i32 and child
count u32, a skipped 0x20-byte region, the UTF-16 name with trailing NULs
stripped, then the child pointer list. -/
def read_pdir (fd : Fd) : Except Err (Option Entry × Fd) :=
  match readStructN fd 8 with
  | none => .error .structError
  | some (buf, fd1) =>
    let namesize := i32le (buf.take 4)
    let childcount := u32le (buf.drop 4)
    let fd2 := fd1.seekRel 32
    let p := fd2.readInt (namesize * 2)
    let name := rstripNull (decode_str p.1)
    match read_children childcount p.2 with
    | .error e => .error e
    | .ok (children, fd4) => .ok (some (.dir name children), fd4)

/-- Models `_read_file` (ggpk.py lines 134-143): name length i32, a skipped
0x20-byte region, the UTF-16 name, then the data extent starting at the
current position with size nextoffs - tell(), computed with no sign check. -/
def read_file (fd : Fd) (nextoffs : Nat) : Except Err (Option Entry × Fd) :=
  match readStructN fd 4 with
  | none => .error .structError
  | some (buf, fd1) =>
    let namesize := i32le buf
    let fd2 := fd1.seekRel 32
    let p := fd2.readInt (namesize * 2)
    let name := rstripNull (decode_str p.1)
    let offs := p.2.tell
    let size : Int := (nextoffs : Int) - (offs : Int)
    .ok (some (.file name offs size), p.2)

/-- Models `_read_entry` (ggpk.py lines 148-156): reads the record header
{next offset u32, tag 4 bytes} at the current position and dispatches on
the tag.  FREE returns None; a tag that matches none of the three branches
falls off the end of the Python function and also returns None. -/
def read_entry (fd : Fd) : Except Err (Option Entry × Fd) :=
  let curoffs := fd.tell
  match readStructN fd 8 with
  | none => .error .structError
  | some (buf, fd1) =>
    let nextoffs := u32le (buf.take 4)
    let tag := buf.drop 4
    if tag = pdirTag then read_pdir fd1
    else if tag = fileTag then read_file fd1 (curoffs + nextoffs)
    else if tag = freeTag then .ok (none, fd1)
    else .ok (none, fd1)

/-- The u32 next-offset field of the record header at the fd's position. -/
def entryNextOffs (fd : Fd) : Nat := u32le (bytesAt fd.data fd.pos 4)

/-- The 4-byte tag of the record header at the fd's position. -/
def entryTag (fd : Fd) : List Nat := bytesAt fd.data (fd.pos + 4) 4

/-- The i32 name-length field of a FILE record at the fd's position. -/
def fileNameSize (fd : Fd) : Int := i32le (bytesAt fd.data (fd.pos + 8) 4)

/-- The on-disk child offsets of a PDIR record whose child-pointer array
starts at position p: count fields of u64 at byte 4 of each 12-byte
child struct, in on-disk order. -/
def childOffsets (data : List Nat) : Nat → Nat → List Nat
  | _, 0 => []
  | p, n + 1 => u64le (bytesAt data (p + 4) 8) :: childOffsets data (p + 12) n

/-- Models ChildPointer (ggpk.py lines 65-72): a shared fd plus the stored
absolute offset (the `where` field). -/
structure ChildPointer where
  fd : Fd
  whereOffs : Nat
deriving DecidableEq

/-- Models ChildPointer.read (ggpk.py lines 70-72): seek to the stored
offset, then decode one entry there. -/
def ChildPointer.read (c : ChildPointer) : Except Err (Option Entry × Fd) :=
  read_entry (c.fd.seekAbs c.whereOffs)

/-- Models DirectoryEntry.__iter__ (ggpk.py lines 82-84) run to completion:
for each stored child offset in order, resolve it through a ChildPointer
sharing the fd and yield the decoded record; an exception raised by a
resolution aborts the iteration and is the last event. -/
def dir_iter (fd : Fd) : List Nat → List (Except Err (Option Entry))
  | [] => []
  | offs :: rest =>
    match ChildPointer.read ⟨fd, offs⟩ with
    | .error e => [.error e]
    | .ok (ent, fd1) => .ok ent :: dir_iter fd1 rest

/-- Models FileHeader (ggpk.py lines 47-63): struct format I 4s I Q Q, so
version at byte 0, identifier bytes 4-8, root offset at bytes 12-20.  The
identifier is stored and never compared with anything. -/
structure FileHeader where
  version : Nat
  identifier : List Nat
  rootoffs : Nat
deriving DecidableEq

/-- Models FileHeader.read (ggpk.py lines 59-63): read 28 bytes and unpack;
unpack_from raises struct.error when fewer than 28 bytes were available. -/
def FileHeader.read (fd : Fd) : Except Err (FileHeader × Fd) :=
  let p := fd.read 28
  if p.1.length < 28 then .error .structError
  else .ok (⟨u32le (p.1.take 4), bytesAt p.1 4 4, u64le (bytesAt p.1 12 8)⟩, p.2)

/-- Models the File object after a successful `File.__init__`: header, the
root record stored by `__read_fs` (whatever `_read_entry` returned, with no
check that it is a directory), and the shared fd. -/
structure File where
  header : FileHeader
  root : Option Entry
  fd : Fd
deriving DecidableEq

/-- Models `File.__init__` (ggpk.py lines 25-28) together with `__read_fs`
(lines 36-38) on an already-opened byte source: parse the header from
position 0, seek to the header's root offset, decode one entry there and
store it as the root.  There is no identifier validation and no check on
the kind of record found at the root offset; any struct.error propagates
out of the constructor. -/
def fileOpen (data : List Nat) : Except Err File :=
  match FileHeader.read ⟨data, 0⟩ with
  | .error e => .error e
  | .ok (header, fd1) =>
    match read_entry (fd1.seekAbs header.rootoffs) with
    | .error e => .error e
    | .ok (root, fd2) => .ok ⟨header, root, fd2⟩

/-- Models File.extract (ggpk.py lines 43-45) on the file's `where` pair:
seek to the stored offset and read the stored size.  The read returns
whatever bytes are available (possibly fewer than size); nothing raises. -/
def File.extract (f : File) (offs : Nat) (size : Int) : List Nat :=
  ((f.fd.seekAbs offs).readInt size).1

/-- An fd lifecycle event for one `with File(path) as f` session. -/
inductive Ev where
  | opened
  | closed
deriving DecidableEq

/-- Event trace of the underlying descriptor across construction and
disposal of a File used as a context manager.  `__init__` (line 26) opens
the descriptor first and then parses header and root with no try/finally,
so when parsing raises, the exception propagates out of the constructor,
`__enter__`/`__exit__` never run and nothing closes the descriptor; when
construction succeeds, `__exit__` (lines 33-34) closes it once. -/
def sessionTrace (data : List Nat) : List Ev :=
  match fileOpen data with
  | .ok _ => [.opened, .closed]
  | .error _ => [.opened]

/-- Number of close events in the session trace for the given source. -/
def closeCount (data : List Nat) : Nat := (sessionTrace data).count .closed

/-- A 0x20-byte reserved region (skipped by the decoders). -/
def zeros32 : List Nat := List.replicate 32 0

/-- A fixture byte source: a PDIR named r at offset 0 with three children
in on-disk order — a FILE named x at 86 with 2 data bytes at 132, a FREE
record at 134, and a FILE named y at 142 with 1 data byte at 188. -/
def fixtureF : List Nat :=
  [0, 0, 0, 0, 80, 68, 73, 82, 1, 0, 0, 0, 3, 0, 0, 0] ++ zeros32 ++ [114, 0]
    ++ [0, 0, 0, 0, 86, 0, 0, 0, 0, 0, 0, 0]
    ++ [0, 0, 0, 0, 134, 0, 0, 0, 0, 0, 0, 0]
    ++ [0, 0, 0, 0, 142, 0, 0, 0, 0, 0, 0, 0]
    ++ [48, 0, 0, 0, 70, 73, 76, 69, 1, 0, 0, 0] ++ zeros32 ++ [120, 0]
    ++ [104, 105]
    ++ [8, 0, 0, 0, 70, 82, 69, 69]
    ++ [47, 0, 0, 0, 70, 73, 76, 69, 1, 0, 0, 0] ++ zeros32 ++ [121, 0]
    ++ [33]

/-- A fixture archive whose 28-byte header has identifier XXXX (not the
GGPK magic) and root offset 28, where a FREE record sits. -/
def badMagicArchive : List Nat :=
  [1, 0, 0, 0, 88, 88, 88, 88, 0, 0, 0, 0, 28, 0, 0, 0, 0, 0, 0, 0,
   0, 0, 0, 0, 0, 0, 0, 0, 8, 0, 0, 0, 70, 82, 69, 69]

/-- A fixture archive with the proper GGPK magic and root offset 28,
where a FREE record sits; fileOpen succeeds on it. -/
def goodArchive : List Nat :=
  [1, 0, 0, 0, 71, 71, 80, 75, 0, 0, 0, 0, 28, 0, 0, 0, 0, 0, 0, 0,
   0, 0, 0, 0, 0, 0, 0, 0, 8, 0, 0, 0, 70, 82, 69, 69]

/-- A record with tag ZZZZ, unknown to the dispatcher. -/
def unknownTagData : List Nat := [0, 0, 0, 0, 90, 90, 90, 90]

/-- A FILE record at offset 0 whose header next-offset field is 0, so the
computed extent size is 0 - 46 = -46. -/
def negSizeData : List Nat :=
  [0, 0, 0, 0, 70, 73, 76, 69, 1, 0, 0, 0] ++ zeros32 ++ [120, 0]

end Ggpk

namespace DiffTool

/-- File comparison constant (diff.py line 19). -/
def Same : Nat := 0

/-- File comparison constant (diff.py line 20). -/
def Modified : Nat := 1

/-- File comparison constant (diff.py line 21). -/
def New : Nat := 2

/-- File comparison constant (diff.py line 22). -/
def Deleted : Nat := 3

/-- The OSError raised by os.path.getsize on a missing path. -/
inductive OSErr where
  | fileNotFound
deriving DecidableEq

/-- The chunked comparison loop of `compare` (diff.py lines 92-99) on the
two files' contents: read bufsize bytes from each, differing chunks mean
Modified, two empty chunks mean both files ended, Same. -/
def chunkLoop (bufsize : Nat) (c1 c2 : List Nat) : Nat :=
  if h1 : c1.take bufsize ≠ c2.take bufsize then Modified
  else if h2 : c1.take bufsize = [] ∧ c2.take bufsize = [] then Same
  else chunkLoop bufsize (c1.drop bufsize) (c2.drop bufsize)
termination_by c1.length
decreasing_by
  have h1e : c1.take bufsize = c2.take bufsize := not_not.mp h1
  have hne : ¬(bufsize = 0 ∨ c1 = []) := by
    rw [← List.take_eq_nil_iff]
    intro hnil
    exact h2 ⟨hnil, by rw [← h1e]; exact hnil⟩
  push_neg at hne
  simp only [List.length_drop]
  exact Nat.sub_lt (List.length_pos.mpr hne.2) (Nat.pos_of_ne_zero hne.1)

/-- Models `compare` (diff.py lines 69-100) on the optional contents of the
two paths (none when the path does not exist): the two existence branches
first, then os.path.getsize on the first path — which raises OSError when
that path does not exist, reachable exactly when neither path exists —
then the size check, then the chunk loop. -/
def compareFiles (c1 c2 : Option (List Nat)) (bufsize : Nat) : Except OSErr Nat :=
  let e1 := c1.isSome
  let e2 := c2.isSome
  if !e1 && e2 then .ok New
  else if e1 && !e2 then .ok Deleted
  else
    match c1, c2 with
    | some b1, some b2 =>
      if b1.length ≠ b2.length then .ok Modified
      else .ok (chunkLoop bufsize b1 b2)
    | _, _ => .error .fileNotFound

/-- Lookup of a relative path in a directory modelled as a finite list of
(path, content) pairs; paths are opaque naturals. -/
def lookupFS (fs : List (Nat × List Nat)) (f : Nat) : Option (List Nat) :=
  match fs.find? (fun p => p.1 == f) with
  | some p => some p.2
  | none => none

/-- Recursion of `diff` over the files of the second tree. -/
def diffRun (fs1 : List (Nat × List Nat)) (bufsize : Nat) :
    List (Nat × List Nat) → Except OSErr (List (Nat × Nat))
  | [] => .ok []
  | (f, c2) :: rest =>
    match compareFiles (lookupFS fs1 f) (some c2) bufsize with
    | .error e => .error e
    | .ok r =>
      match diffRun fs1 bufsize rest with
      | .error e => .error e
      | .ok out => .ok (if r ≠ Same then (r, f) :: out else out)

/-- Models `diff` (diff.py lines 102-119) on two directories given as
finite (path, content) lists, returning the (kind, path) summary lines it
writes: although line 114 computes `t1 = tree(d1)`, that value is never
used — the loop iterates only over `t2 = tree(d2)`, comparing each file of
the second tree against the same relative path under the first directory
and emitting a line when the result is not Same. -/
def diff (fs1 fs2 : List (Nat × List Nat)) (bufsize : Nat) :
    Except OSErr (List (Nat × Nat)) :=
  diffRun fs1 bufsize fs2

end DiffTool

namespace Ggpk

theorem Fd.read_exact (fd : Fd) (n : Nat) (h : fd.pos + n ≤ fd.data.length) :
    fd.read n = (bytesAt fd.data fd.pos n, ⟨fd.data, fd.pos + n⟩) := by
  have hlen : ((fd.data.drop fd.pos).take n).length = n := by
    rw [List.length_take, List.length_drop]; omega
  simp [Fd.read, bytesAt, hlen]

theorem readStructN_pos (fd : Fd) (n : Nat) (h : fd.pos + n ≤ fd.data.length) :
    readStructN fd n = some (bytesAt fd.data fd.pos n, ⟨fd.data, fd.pos + n⟩) := by
  have hlen : (bytesAt fd.data fd.pos n).length = n := by
    rw [bytesAt, List.length_take, List.length_drop]; omega
  simp only [readStructN, Fd.read_exact fd n h]
  simp [hlen]

theorem bytesAt_take (data : List Nat) (p n m : Nat) (h : m ≤ n) :
    (bytesAt data p n).take m = bytesAt data p m := by
  simp [bytesAt, List.take_take, Nat.min_eq_left h]

theorem bytesAt_drop (data : List Nat) (p n m : Nat) :
    (bytesAt data p n).drop m = bytesAt data (p + m) (n - m) := by
  simp [bytesAt, List.drop_take, List.drop_drop, Nat.add_comm]

theorem Fd.readInt_natCast (fd : Fd) (k : Nat) : fd.readInt (k : Int) = fd.read k := by
  simp [Fd.readInt]

end Ggpk

namespace Ggpk

theorem read_file_spec (fd : Fd) (k nxt : Nat)
    (hk : i32le (bytesAt fd.data fd.pos 4) = (k : Int))
    (h4 : fd.pos + 4 ≤ fd.data.length)
    (hname : fd.pos + 36 + 2 * k ≤ fd.data.length) :
    read_file fd nxt = .ok (some (.file
        (rstripNull (decode_str (bytesAt fd.data (fd.pos + 36) (2 * k))))
        (fd.pos + 36 + 2 * k)
        ((nxt : Int) - ((fd.pos + 36 + 2 * k : Nat) : Int))),
      ⟨fd.data, fd.pos + 36 + 2 * k⟩) := by
  have h2 : i32le (bytesAt fd.data fd.pos 4) * 2 = ((2 * k : Nat) : Int) := by
    rw [hk]; push_cast; ring
  simp only [read_file, readStructN_pos fd 4 h4, Fd.seekRel, Fd.tell, h2,
    Fd.readInt_natCast]
  rw [show fd.pos + 4 + 32 = fd.pos + 36 from by omega]
  rw [Fd.read_exact ⟨fd.data, fd.pos + 36⟩ (2 * k) hname]

end Ggpk

namespace Ggpk

theorem read_entry_file_spec (fd : Fd) (k : Nat)
    (htag : entryTag fd = fileTag)
    (hk : fileNameSize fd = (k : Int))
    (h12 : fd.pos + 12 ≤ fd.data.length)
    (hname : fd.pos + 44 + 2 * k ≤ fd.data.length) :
    read_entry fd = .ok (some (.file
        (rstripNull (decode_str (bytesAt fd.data (fd.pos + 44) (2 * k))))
        (fd.pos + 44 + 2 * k)
        (((fd.pos + entryNextOffs fd : Nat) : Int)
          - ((fd.pos + 44 + 2 * k : Nat) : Int))),
      ⟨fd.data, fd.pos + 44 + 2 * k⟩) := by
  have h8 : fd.pos + 8 ≤ fd.data.length := by omega
  simp only [read_entry, Fd.tell, readStructN_pos fd 8 h8]
  rw [bytesAt_take fd.data fd.pos 8 4 (by omega), bytesAt_drop]
  rw [show bytesAt fd.data (fd.pos + 4) (8 - 4) = entryTag fd from rfl, htag]
  rw [if_neg (by decide : ¬(fileTag = pdirTag)), if_pos rfl]
  rw [show u32le (bytesAt fd.data fd.pos 4) = entryNextOffs fd from rfl]
  rw [read_file_spec ⟨fd.data, fd.pos + 8⟩ k (fd.pos + entryNextOffs fd) hk
    (by simpa using by omega) (by simpa using by omega)]

end Ggpk

namespace Ggpk

theorem read_children_spec (data : List Nat) : ∀ (n p : Nat),
    p + 12 * n ≤ data.length →
    read_children n ⟨data, p⟩ = .ok (childOffsets data p n, ⟨data, p + 12 * n⟩) := by
  intro n
  induction n with
  | zero => intro p h; simp [read_children, childOffsets]
  | succ m ih =>
    intro p h
    have h12 : p + 12 ≤ data.length := by omega
    simp only [read_children, readStructN_pos ⟨data, p⟩ 12 h12, Fd.tell,
      Fd.seekAbs, bytesAt_drop]
    rw [ih (p + 12) (by omega)]
    simp only [childOffsets]
    rw [show (12 : Nat) - 4 = 8 from rfl]
    rw [show p + 12 + 12 * m = p + 12 * (m + 1) from by omega]

end Ggpk

namespace Ggpk

theorem read_entry_pdir_spec (fd : Fd) (k c : Nat)
    (htag : entryTag fd = pdirTag)
    (hk : i32le (bytesAt fd.data (fd.pos + 8) 4) = (k : Int))
    (hc : u32le (bytesAt fd.data (fd.pos + 12) 4) = c)
    (hch : fd.pos + 48 + 2 * k + 12 * c ≤ fd.data.length) :
    read_entry fd = .ok (some (.dir
        (rstripNull (decode_str (bytesAt fd.data (fd.pos + 48) (2 * k))))
        (childOffsets fd.data (fd.pos + 48 + 2 * k) c)),
      ⟨fd.data, fd.pos + 48 + 2 * k + 12 * c⟩) := by
  have h8 : fd.pos + 8 ≤ fd.data.length := by omega
  have h2 : (k : Int) * 2 = ((2 * k : Nat) : Int) := by push_cast; ring
  simp only [read_entry, Fd.tell, readStructN_pos fd 8 h8]
  rw [bytesAt_drop]
  rw [show bytesAt fd.data (fd.pos + 4) (8 - 4) = entryTag fd from rfl, htag]
  rw [if_pos rfl]
  have h16 : fd.pos + 8 + 8 ≤ fd.data.length := by omega
  simp only [read_pdir, readStructN_pos ⟨fd.data, fd.pos + 8⟩ 8
    (by simpa using by omega), Fd.seekRel, bytesAt_drop]
  rw [bytesAt_take fd.data (fd.pos + 8) 8 4 (by omega)]
  rw [hk, h2, Fd.readInt_natCast]
  rw [show fd.pos + 8 + 8 + 32 = fd.pos + 48 from by omega]
  rw [Fd.read_exact ⟨fd.data, fd.pos + 48⟩ (2 * k) (by simpa using by omega)]
  dsimp only
  rw [show fd.pos + 8 + 4 = fd.pos + 12 from by omega,
    show (8 : Nat) - 4 = 4 from rfl, hc]
  rw [read_children_spec fd.data c (fd.pos + 48 + 2 * k) (by omega)]

end Ggpk

open Ggpk

set_option maxRecDepth 40000

/-- C1: the claim states that decoding a record whose 4-byte tag is none of
PDIR, FILE, FREE fails with a FormatError.  This closed counterexample
refutes it: at a record tagged ZZZZ the decoder returns successfully with
None (the same value as for a FREE tombstone) — ggpk.py defines no
FormatError and `_read_entry` simply falls off the end for unknown tags. -/
theorem claim_C1_cex :
    entryTag ⟨unknownTagData, 0⟩ ≠ pdirTag ∧
    entryTag ⟨unknownTagData, 0⟩ ≠ fileTag ∧
    entryTag ⟨unknownTagData, 0⟩ ≠ freeTag ∧
    read_entry ⟨unknownTagData, 0⟩ = .ok (none, ⟨unknownTagData, 8⟩) :=
  ⟨by decide, by decide, by decide, rfl⟩

/-- C1 amended: for every byte source and offset where the 8-byte record
header is readable and the tag is none of PDIR, FILE or FREE, `_read_entry`
returns None without raising — indistinguishable from a FREE tombstone. -/
theorem claim_C1 (fd : Fd) (h8 : fd.pos + 8 ≤ fd.data.length)
    (hp : entryTag fd ≠ pdirTag) (hf : entryTag fd ≠ fileTag)
    (hr : entryTag fd ≠ freeTag) :
    read_entry fd = .ok (none, ⟨fd.data, fd.pos + 8⟩) := by
  simp only [read_entry, Fd.tell, readStructN_pos fd 8 h8]
  rw [bytesAt_drop]
  rw [show bytesAt fd.data (fd.pos + 4) (8 - 4) = entryTag fd from rfl]
  rw [if_neg hp, if_neg hf, if_neg hr]

/-- Witness for C1 at a concrete record tagged WWWW. -/
theorem claim_C1_witness :
    read_entry ⟨[0, 0, 0, 0, 87, 87, 87, 87], 0⟩ =
      .ok (none, ⟨[0, 0, 0, 0, 87, 87, 87, 87], 8⟩) := by
  exact claim_C1 ⟨[0, 0, 0, 0, 87, 87, 87, 87], 0⟩ (by decide) (by decide)
    (by decide) (by decide)

/-- C3: the claim states that a FILE record whose computed extent length is
negative fails with FormatError.  This closed counterexample refutes it: a
FILE record whose header next-offset is 0 decodes successfully to a
FileEntry of size -46. -/
theorem claim_C3_cex :
    read_entry ⟨negSizeData, 0⟩ =
      .ok (some (.file [120] 46 (-46)), ⟨negSizeData, 46⟩) ∧ (-46 : Int) < 0 :=
  ⟨rfl, by decide⟩

/-- C3 amended: when the computed extent length
(currentOffset + nextOffset) - dataStart is negative, `_read_file` still
returns successfully, storing the negative size in the FileEntry. -/
theorem claim_C3 (fd : Fd) (k : Nat)
    (htag : entryTag fd = fileTag)
    (hk : fileNameSize fd = (k : Int))
    (h12 : fd.pos + 12 ≤ fd.data.length)
    (hname : fd.pos + 44 + 2 * k ≤ fd.data.length)
    (hneg : ((fd.pos + entryNextOffs fd : Nat) : Int)
      - ((fd.pos + 44 + 2 * k : Nat) : Int) < 0) :
    read_entry fd = .ok (some (.file
        (rstripNull (decode_str (bytesAt fd.data (fd.pos + 44) (2 * k))))
        (fd.pos + 44 + 2 * k)
        (((fd.pos + entryNextOffs fd : Nat) : Int)
          - ((fd.pos + 44 + 2 * k : Nat) : Int))),
      ⟨fd.data, fd.pos + 44 + 2 * k⟩) ∧
    ((fd.pos + entryNextOffs fd : Nat) : Int)
      - ((fd.pos + 44 + 2 * k : Nat) : Int) < 0 :=
  ⟨read_entry_file_spec fd k htag hk h12 hname, hneg⟩

/-- Witness for C3 at the concrete negative-size FILE record. -/
theorem claim_C3_witness :
    read_entry ⟨negSizeData, 0⟩ =
      .ok (some (.file [120] 46 (-46)), ⟨negSizeData, 46⟩) ∧ (-46 : Int) < 0 := by
  exact claim_C3 ⟨negSizeData, 0⟩ 1 (by decide) (by decide) (by decide)
    (by decide) (by decide)

/-- C5: decoding a FILE record at currentOffset with header field
nextOffset yields a FileEntry whose offset is the source position
immediately after the UTF-16 name (currentOffset + 44 + 2·nameLength, which
is also where the decoder leaves the shared fd) and whose length is
(currentOffset + nextOffset) minus that data-start position. -/
theorem claim_C5 (fd : Fd) (k : Nat)
    (htag : entryTag fd = fileTag)
    (hk : fileNameSize fd = (k : Int))
    (h12 : fd.pos + 12 ≤ fd.data.length)
    (hname : fd.pos + 44 + 2 * k ≤ fd.data.length) :
    read_entry fd = .ok (some (.file
        (rstripNull (decode_str (bytesAt fd.data (fd.pos + 44) (2 * k))))
        (fd.pos + 44 + 2 * k)
        (((fd.pos + entryNextOffs fd : Nat) : Int)
          - ((fd.pos + 44 + 2 * k : Nat) : Int))),
      ⟨fd.data, fd.pos + 44 + 2 * k⟩) :=
  read_entry_file_spec fd k htag hk h12 hname

/-- Witness for C5 at the FILE record named x inside the fixture archive. -/
theorem claim_C5_witness :
    read_entry ⟨fixtureF, 86⟩ =
      .ok (some (.file [120] 132 2), ⟨fixtureF, 132⟩) := by
  exact claim_C5 ⟨fixtureF, 86⟩ 1 (by decide) (by decide) (by decide) (by decide)

/-- C6: decoding a PDIR record yields a Directory whose children list is
exactly the on-disk child offsets in on-disk order, unresolved (the list
holds bare offsets for ChildPointers; nothing at those offsets is read at
decode time); and in the concrete fixture whose root PDIR has children
FILE x, FREE, FILE y, iterating the directory yields exactly three results
in that order, the second being None (a tombstone), the other two being
the decoded FILE entries. -/
theorem claim_C6 :
    (∀ (fd : Fd) (k c : Nat),
      entryTag fd = pdirTag →
      i32le (bytesAt fd.data (fd.pos + 8) 4) = (k : Int) →
      u32le (bytesAt fd.data (fd.pos + 12) 4) = c →
      fd.pos + 48 + 2 * k + 12 * c ≤ fd.data.length →
      read_entry fd = .ok (some (.dir
          (rstripNull (decode_str (bytesAt fd.data (fd.pos + 48) (2 * k))))
          (childOffsets fd.data (fd.pos + 48 + 2 * k) c)),
        ⟨fd.data, fd.pos + 48 + 2 * k + 12 * c⟩)) ∧
    read_entry ⟨fixtureF, 0⟩ =
      .ok (some (.dir [114] [86, 134, 142]), ⟨fixtureF, 86⟩) ∧
    dir_iter ⟨fixtureF, 86⟩ [86, 134, 142] =
      [.ok (some (.file [120] 132 2)), .ok none,
        .ok (some (.file [121] 188 1))] :=
  ⟨fun fd k c htag hk hc hch => read_entry_pdir_spec fd k c htag hk hc hch,
    rfl, rfl⟩

/-- Witness for C6: the general PDIR conjunct applied to the fixture root. -/
theorem claim_C6_witness :
    read_entry ⟨fixtureF, 0⟩ =
      .ok (some (.dir [114] [86, 134, 142]), ⟨fixtureF, 86⟩) := by
  exact claim_C6.1 ⟨fixtureF, 0⟩ 1 3 (by decide) (by decide) (by decide)
    (by decide)

/-- C7: resolution is deterministic and side-effect-free on the archive —
reading through a ChildPointer first seeks to the stored offset, so the
decoded record does not depend on the shared fd's prior read position, and
re-iterating a directory's children over an unchanged byte source yields
structurally equal result lists. -/
theorem claim_C7 (data : List Nat) (offs p1 p2 : Nat) (children : List Nat) :
    ChildPointer.read ⟨⟨data, p1⟩, offs⟩ = ChildPointer.read ⟨⟨data, p2⟩, offs⟩ ∧
    dir_iter ⟨data, p1⟩ children = dir_iter ⟨data, p2⟩ children := by
  refine ⟨rfl, ?_⟩
  cases children with
  | nil => rfl
  | cons o rest => simp only [dir_iter, ChildPointer.read, Fd.seekAbs]

/-- Bytes 4 to 8 of an exact 28-byte header buffer are bytes 4 to 8 of the
underlying source. -/
theorem header_id_bytes (data : List Nat) :
    bytesAt (bytesAt data 0 28) 4 4 = bytesAt data 4 4 := by
  simp [bytesAt, List.drop_take, List.take_take]

/-- Bytes 12 to 20 of an exact 28-byte header buffer are bytes 12 to 20 of
the underlying source. -/
theorem header_root_bytes (data : List Nat) :
    bytesAt (bytesAt data 0 28) 12 8 = bytesAt data 12 8 := by
  simp [bytesAt, List.drop_take, List.take_take]

/-- On a source shorter than the 28-byte header, fileOpen raises the
struct.error coming from unpack_from. -/
theorem fileOpen_short (data : List Nat) (h : data.length < 28) :
    fileOpen data = .error .structError := by
  simp only [fileOpen, FileHeader.read, Fd.read]
  rw [if_pos (by simp [List.length_take, List.length_drop]; omega)]

/-- On a source with at least 28 bytes, fileOpen parses the header without
any identifier check and proceeds to decode whatever sits at the root
offset taken from header bytes 12 to 20. -/
theorem fileOpen_ge (data : List Nat) (h : 28 ≤ data.length) :
    fileOpen data =
      match read_entry ⟨data, u64le (bytesAt data 12 8)⟩ with
      | .error e => .error e
      | .ok (root, fd2) =>
        .ok ⟨⟨u32le (bytesAt data 0 4), bytesAt data 4 4,
          u64le (bytesAt data 12 8)⟩, root, fd2⟩ := by
  simp only [fileOpen, FileHeader.read]
  rw [Fd.read_exact ⟨data, 0⟩ 28 (by simpa using by omega)]
  dsimp only
  rw [if_neg (by simp [bytesAt, List.length_take, List.length_drop]; omega)]
  rw [bytesAt_take data 0 28 4 (by omega), header_id_bytes, header_root_bytes]
  simp only [Fd.seekAbs]

/-- C2: the claim states that open fails with FormatError on a short
source, on a wrong magic identifier, and on a root record that is not a
directory.  This closed counterexample refutes the last two parts at once:
on an archive whose identifier is XXXX and whose root offset holds a FREE
record, open succeeds, storing the mismatched identifier and a None root. -/
theorem claim_C2_cex :
    fileOpen badMagicArchive =
      .ok ⟨⟨1, [88, 88, 88, 88], 28⟩, none, ⟨badMagicArchive, 36⟩⟩ ∧
    [88, 88, 88, 88] ≠ gpkMagic :=
  ⟨rfl, by decide⟩

/-- C2 amended: open never validates the identifier and never checks the
kind of the root record — it succeeds exactly when the source has at least
the 28 header bytes and the record at the header's root offset decodes;
a shorter source fails with struct.error (from unpack), there being no
FormatError in the code. -/
theorem claim_C2 (data : List Nat) :
    ((fileOpen data).isOk ↔ 28 ≤ data.length ∧
      (read_entry ⟨data, u64le (bytesAt data 12 8)⟩).isOk) ∧
    (data.length < 28 → fileOpen data = .error .structError) := by
  constructor
  · by_cases h : 28 ≤ data.length
    · rw [fileOpen_ge data h]
      rcases hre : read_entry ⟨data, u64le (bytesAt data 12 8)⟩ with e | pr
      · simp [Except.isOk, Except.toBool, h]
      · obtain ⟨root, fd2⟩ := pr
        simp [Except.isOk, Except.toBool, h]
    · rw [fileOpen_short data (by omega)]
      simp [Except.isOk, Except.toBool, h]
  · intro hlt
    exact fileOpen_short data hlt

/-- Witness for C2 on the empty source. -/
theorem claim_C2_witness : fileOpen [] = .error .structError :=
  (claim_C2 []).2 (by decide)

/-- C4: the claim states that extract fails with IOError when fewer than
length bytes are available.  This closed counterexample refutes it: on a
3-byte source, extracting 5 bytes at offset 1 silently returns the 2
available bytes and no error is raised (extract is total). -/
theorem claim_C4_cex :
    File.extract ⟨⟨1, gpkMagic, 28⟩, none, ⟨[10, 20, 30], 0⟩⟩ 1 5 = [20, 30] ∧
    (File.extract ⟨⟨1, gpkMagic, 28⟩, none, ⟨[10, 20, 30], 0⟩⟩ 1 5).length ≠ 5 :=
  ⟨rfl, by decide⟩

/-- C4 amended: extract returns the bytes of the source from offset,
truncated at end of source — verbatim, and of length exactly the stored
length whenever offset + length is within the source; on a truncated
source it returns the shorter available suffix instead of raising. -/
theorem claim_C4 (f : File) (offs : Nat) (size : Int) (hsz : 0 ≤ size) :
    f.extract offs size = bytesAt f.fd.data offs size.toNat ∧
    (offs + size.toNat ≤ f.fd.data.length →
      (f.extract offs size).length = size.toNat) := by
  have h1 : f.extract offs size = bytesAt f.fd.data offs size.toNat := by
    simp only [File.extract, Fd.seekAbs, Fd.readInt]
    rw [if_neg (by omega)]
    simp [Fd.read, bytesAt]
  refine ⟨h1, fun hle => ?_⟩
  rw [h1, bytesAt, List.length_take, List.length_drop]
  omega

/-- Witness for C4: extracting the extent of the FILE named x from the
fixture archive returns exactly its 2 data bytes. -/
theorem claim_C4_witness :
    File.extract ⟨⟨1, gpkMagic, 28⟩, none, ⟨fixtureF, 0⟩⟩ 132 2 = [104, 105] ∧
    (File.extract ⟨⟨1, gpkMagic, 28⟩, none, ⟨fixtureF, 0⟩⟩ 132 2).length = 2 := by
  have h := claim_C4 ⟨⟨1, gpkMagic, 28⟩, none, ⟨fixtureF, 0⟩⟩ 132 2 (by decide)
  exact ⟨by rw [h.1]; rfl, h.2 (by decide)⟩

/-- C8: the claim states the byte source is closed exactly once on every
path, including a failure inside open.  This closed counterexample refutes
it: on the empty source, header parsing raises inside the constructor, the
context manager protocol never runs, and the descriptor is closed zero
times. -/
theorem claim_C8_cex : closeCount [] = 0 ∧ closeCount [] ≠ 1 :=
  ⟨rfl, by decide⟩

/-- C8 amended: the descriptor is closed exactly once when construction
succeeds and the with-block is disposed, and zero times when header or
root parsing raises inside the constructor (the descriptor leaks, there
being no try/finally in `__init__`). -/
theorem claim_C8 :
    (∀ (data : List Nat) (g : File), fileOpen data = .ok g →
      closeCount data = 1) ∧
    (∀ (data : List Nat) (e : Err), fileOpen data = .error e →
      closeCount data = 0) := by
  constructor
  · intro data g h
    simp only [closeCount, sessionTrace, h]
    decide
  · intro data e h
    simp only [closeCount, sessionTrace, h]
    decide

/-- Witness for C8 on a well-formed archive and on the empty source. -/
theorem claim_C8_witness : closeCount goodArchive = 1 ∧ closeCount [] = 0 :=
  ⟨claim_C8.1 goodArchive ⟨⟨1, gpkMagic, 28⟩, none, ⟨goodArchive, 36⟩⟩ rfl,
    claim_C8.2 [] .structError rfl⟩

namespace DiffTool

theorem chunkLoop_ne_deleted (b : Nat) (c1 c2 : List Nat) :
    chunkLoop b c1 c2 ≠ Deleted := by
  induction c1, c2 using chunkLoop.induct b with
  | case1 c1 c2 h1 =>
    rw [chunkLoop, dif_pos h1]
    decide
  | case2 c1 c2 h1 h2 =>
    rw [chunkLoop, dif_neg h1, dif_pos h2]
    decide
  | case3 c1 c2 h1 h2 ih =>
    rw [chunkLoop, dif_neg h1, dif_neg h2]
    exact ih

theorem compareFiles_none_some (b2 : List Nat) (bufsize : Nat) :
    compareFiles none (some b2) bufsize = .ok New := by
  simp [compareFiles]

theorem compareFiles_some_some (b1 b2 : List Nat) (bufsize : Nat) :
    compareFiles (some b1) (some b2) bufsize =
      if b1.length ≠ b2.length then .ok Modified
      else .ok (chunkLoop bufsize b1 b2) := by
  simp [compareFiles]

theorem compareFiles_snd_some_ne_deleted (c1 : Option (List Nat))
    (b2 : List Nat) (bufsize r : Nat)
    (h : compareFiles c1 (some b2) bufsize = .ok r) : r ≠ Deleted := by
  cases c1 with
  | none =>
    rw [compareFiles_none_some] at h
    simp only [Except.ok.injEq] at h
    subst h
    decide
  | some b1 =>
    rw [compareFiles_some_some] at h
    by_cases hsz : b1.length ≠ b2.length
    · rw [if_pos hsz] at h
      simp only [Except.ok.injEq] at h
      subst h
      decide
    · rw [if_neg hsz] at h
      simp only [Except.ok.injEq] at h
      subst h
      exact chunkLoop_ne_deleted bufsize b1 b2

theorem diffRun_no_deleted (fs1 : List (Nat × List Nat)) (bufsize : Nat) :
    ∀ (fs2 : List (Nat × List Nat)) (out : List (Nat × Nat)),
      diffRun fs1 bufsize fs2 = .ok out → ∀ f, (Deleted, f) ∉ out := by
  intro fs2
  induction fs2 with
  | nil =>
    intro out h f
    simp only [diffRun, Except.ok.injEq] at h
    subst h
    simp
  | cons hd tl ih =>
    intro out h f
    obtain ⟨fh, ch⟩ := hd
    simp only [diffRun] at h
    rcases hc : compareFiles (lookupFS fs1 fh) (some ch) bufsize with e | r
    · rw [hc] at h
      simp at h
    · rw [hc] at h
      rcases hr : diffRun fs1 bufsize tl with e2 | out2
      · rw [hr] at h
        simp at h
      · rw [hr] at h
        simp only [Except.ok.injEq] at h
        subst h
        split
        · intro hmem
          rcases List.mem_cons.mp hmem with heq | hmem2
          · have hr3 : r = Deleted := ((Prod.mk.injEq _ _ _ _).mp heq.symm).1
            exact compareFiles_snd_some_ne_deleted _ ch bufsize r hc hr3
          · exact ih out2 hr f hmem2
        · intro hmem
          exact ih out2 hr f hmem

end DiffTool

/-- C9: the claim states that the directory comparison classifies every
relative path present in either tree, in particular classifying as
Deleted a file present only in the first (old) directory.  The code
computes `t1 = tree(d1)` at diff.py line 114 and never uses it: diff only
iterates files of the second tree, so on the failing input — old directory
holding one file, new directory empty — it emits no classification at
all, and in general no Deleted line can ever be emitted by diff.  The
Deleted constant, its DELETED text and the unused `t1` show the intent the
spec describes, so this is a code bug. -/
theorem claim_C9 :
    DiffTool.diff [(0, [1])] [] 16383 = .ok [] ∧
    (∀ (fs1 fs2 : List (Nat × List Nat)) (bufsize : Nat)
      (out : List (Nat × Nat)),
      DiffTool.diff fs1 fs2 bufsize = .ok out →
      ∀ f, (DiffTool.Deleted, f) ∉ out) :=
  ⟨rfl, fun fs1 fs2 bufsize out h f =>
    DiffTool.diffRun_no_deleted fs1 bufsize fs2 out h f⟩

/-- Witness for C9: the no-Deleted conjunct applied at the failing input. -/
theorem claim_C9_witness :
    DiffTool.diff [(0, [1])] [] 16383 = .ok [] ∧
    (DiffTool.Deleted, 0) ∉ ([] : List (Nat × Nat)) :=
  ⟨claim_C9.1, claim_C9.2 [(0, [1])] [] 16383 [] rfl 0⟩

/-- C10: when neither path exists, compare falls through both existence
branches and reaches os.path.getsize on the first path, which raises
OSError — no classification constant is returned. -/
theorem claim_C10 (bufsize : Nat) :
    DiffTool.compareFiles none none bufsize = .error .fileNotFound := rfl
